import Mathlib

/-!
Verification of the analytics backend (`backend/data_processor.py`,
`backend/app.py`).

The dataset is a list of sales records; dates are calendar dates, numeric
CSV columns of type `Float64` are modelled as exact rationals (`ℚ`), and
`Int64` columns as `Int`.  Fallible Python code (exceptions) is modelled
with `Except PyErr`.  Each `DataProcessor` method is translated to a Lean
function of the optional dataframe `Option (List Record)` (`None` models
`self.df is None`).
-/

/-- A calendar date, as stored in the `Date` column (`pl.Date`). -/

structure YMD where
  year : Nat
  month : Nat
  day : Nat
deriving DecidableEq

/-- One row of the dataset, after `pl.read_csv` type coercion
(`Sale_ID : Int64`, `Date : Date`, `Units_Sold : Int64`,
`Price_Per_Unit, Revenue : Float64`, `Region, Sales_Channel : Utf8`). -/

structure Record where
  sale_id : Int
  date : YMD
  units_sold : Int
  price_per_unit : ℚ
  revenue : ℚ
  region : String
  sales_channel : String
deriving DecidableEq

/-- Python exceptions that the modelled code can raise. -/

inductive PyErr where
  | typeError
  | columnNotFound
  | zeroDivision
  | attributeError
deriving DecidableEq

/-- Executable `≤` on rationals by cross-multiplying numerator and
denominator (kernel-reducible, unlike the `Rat` arithmetic operations). -/

def qleB (a b : ℚ) : Bool := decide (a.num * (b.den : Int) ≤ b.num * (a.den : Int))

/-- Executable calendar-date comparison: lexicographic on (year, month, day),
the order `pl.Date` values carry. -/

def ymdLeB (a b : YMD) : Bool :=
  decide (a.year < b.year ∨ (a.year = b.year ∧
    (a.month < b.month ∨ (a.month = b.month ∧ a.day ≤ b.day))))

/-- Executable lexicographic comparison of character lists by code point,
the order Python/polars use on strings. -/

def strLeAux : List Char → List Char → Bool
  | [], _ => true
  | _ :: _, [] => false
  | a :: as, b :: bs =>
    decide (a.toNat < b.toNat) || (decide (a.toNat = b.toNat) && strLeAux as bs)

/-- Executable lexicographic `≤` on strings. -/

def strLeB (a b : String) : Bool := strLeAux a.data b.data

/-- The filter criteria accepted by `DataProcessor.filter_data`; `none`
models an absent key.  (In the Python code an empty region/channel list is
falsy, so it also deactivates that criterion.) -/

structure Filters where
  start_date : Option YMD
  end_date : Option YMD
  regions : Option (List String)
  channels : Option (List String)
  min_price : Option ℚ
  max_price : Option ℚ

/-- The criteria object with every key absent. -/

def emptyFilters : Filters := ⟨none, none, none, none, none, none⟩

/-- `DataProcessor.filter_data` (data_processor.py:154-183): sequentially
applies each active criterion to the dataframe; returns `None` when no
dataset is loaded. -/

def filter_data (odf : Option (List Record)) (filters : Filters) :
    Option (List Record) :=
  match odf with
  | none => none
  | some df =>
    let df1 := match filters.start_date with
      | some d => df.filter (fun r => ymdLeB d r.date)
      | none => df
    let df2 := match filters.end_date with
      | some d => df1.filter (fun r => ymdLeB r.date d)
      | none => df1
    let df3 := match filters.regions with
      | some rs => if rs.isEmpty then df2 else df2.filter (fun r => rs.contains r.region)
      | none => df2
    let df4 := match filters.channels with
      | some cs => if cs.isEmpty then df3 else df3.filter (fun r => cs.contains r.sales_channel)
      | none => df3
    let df5 := match filters.min_price with
      | some p => df4.filter (fun r => qleB p r.price_per_unit)
      | none => df4
    let df6 := match filters.max_price with
      | some p => df5.filter (fun r => qleB r.price_per_unit p)
      | none => df5
    some df6

/-- The conjunction (logical AND) of the six filter criteria applied to one
record; an absent criterion (and an empty region/channel list, which Python
treats as falsy) imposes no restriction.  Components are listed
max-price-first purely so that the nesting matches the order in which
`filter_data` composes the dataframe filters. -/

def satisfies (filters : Filters) (r : Record) : Bool :=
  (match filters.max_price with
    | some p => qleB r.price_per_unit p
    | none => true) &&
  ((match filters.min_price with
    | some p => qleB p r.price_per_unit
    | none => true) &&
  ((match filters.channels with
    | some cs => if cs.isEmpty then true else cs.contains r.sales_channel
    | none => true) &&
  ((match filters.regions with
    | some rs => if rs.isEmpty then true else rs.contains r.region
    | none => true) &&
  ((match filters.end_date with
    | some d => ymdLeB r.date d
    | none => true) &&
  (match filters.start_date with
    | some d => ymdLeB d r.date
    | none => true)))))

/-- A sample record used to instantiate the general theorems. -/

def sampleRec : Record :=
  { sale_id := 1, date := ⟨2025, 1, 15⟩, units_sold := 2,
    price_per_unit := 5, revenue := 10,
    region := "North", sales_channel := "Online" }

/-- The seven schema columns of the dataset. -/

inductive Col where
  | sale_id
  | date
  | units_sold
  | price_per_unit
  | revenue
  | region
  | sales_channel
deriving DecidableEq

/-- Recognize a column name string (the `sort_by` argument); `none` models
the `ColumnNotFoundError` polars raises in `df.sort` for unknown names. -/

def colOfString (s : String) : Option Col :=
  if s == "Sale_ID" then some .sale_id
  else if s == "Date" then some .date
  else if s == "Units_Sold" then some .units_sold
  else if s == "Price_Per_Unit" then some .price_per_unit
  else if s == "Revenue" then some .revenue
  else if s == "Region" then some .region
  else if s == "Sales_Channel" then some .sales_channel
  else none

/-- Executable comparison of two records by the value of one column, using
each column's natural order (integer, date, rational or string). -/

def colLeB (c : Col) (a b : Record) : Bool :=
  match c with
  | .sale_id => decide (a.sale_id ≤ b.sale_id)
  | .date => ymdLeB a.date b.date
  | .units_sold => decide (a.units_sold ≤ b.units_sold)
  | .price_per_unit => qleB a.price_per_unit b.price_per_unit
  | .revenue => qleB a.revenue b.revenue
  | .region => strLeB a.region b.region
  | .sales_channel => strLeB a.sales_channel b.sales_channel

/-- The order in which `df.sort(sort_by, descending)` arranges records:
ascending by the column for `descending = false`, the reverse otherwise. -/

def tableRel (c : Col) (descending : Bool) : Record → Record → Prop :=
  match descending with
  | false => fun a b => colLeB c a b = true
  | true => fun a b => colLeB c b a = true

instance (c : Col) (d : Bool) : DecidableRel (tableRel c d) := by
  cases d <;> exact fun a b => inferInstanceAs (Decidable (_ = true))

instance (c : Col) (d : Bool) : IsTotal Record (tableRel c d) := by
  have hstr : ∀ xs ys : List Char, strLeAux xs ys = true ∨ strLeAux ys xs = true := by
    intro xs
    induction xs with
    | nil => intro ys; left; rfl
    | cons a as ih =>
      intro ys
      cases ys with
      | nil => right; rfl
      | cons b bs =>
        rcases Nat.lt_trichotomy a.toNat b.toNat with h | h | h
        · left; simp [strLeAux, h]
        · rcases ih bs with h2 | h2
          · left; simp [strLeAux, h, h2]
          · right; simp [strLeAux, h.symm, h2]
        · right; simp [strLeAux, h]
  have hcol : ∀ a b, colLeB c a b = true ∨ colLeB c b a = true := by
    intro a b
    cases c <;>
      simp only [colLeB, ymdLeB, strLeB, qleB, decide_eq_true_eq] <;>
      first
        | exact le_total _ _
        | omega
        | exact hstr _ _
  cases d <;>
    exact ⟨fun a b => by rcases hcol a b with h | h <;> simp [tableRel, h]⟩

instance (c : Col) (d : Bool) : IsTrans Record (tableRel c d) := by
  have hstr : ∀ xs ys zs : List Char, strLeAux xs ys = true → strLeAux ys zs = true →
      strLeAux xs zs = true := by
    intro xs
    induction xs with
    | nil => intro ys zs h1 h2; rfl
    | cons a as ih =>
      intro ys zs h1 h2
      cases ys with
      | nil => simp [strLeAux] at h1
      | cons b bs =>
        cases zs with
        | nil => simp [strLeAux] at h2
        | cons e es =>
          simp only [strLeAux, Bool.or_eq_true, Bool.and_eq_true,
            decide_eq_true_eq] at h1 h2 ⊢
          rcases h1 with h1 | ⟨h1e, h1r⟩ <;> rcases h2 with h2 | ⟨h2e, h2r⟩
          · exact Or.inl (lt_trans h1 h2)
          · exact Or.inl (h2e ▸ h1)
          · exact Or.inl (h1e ▸ h2)
          · exact Or.inr ⟨h1e.trans h2e, ih bs es h1r h2r⟩
  have hq : ∀ x y : ℚ, qleB x y = true ↔ x ≤ y := fun x y => by
    rw [Rat.le_def]; simp [qleB]
  have hcol : ∀ a b e, colLeB c a b = true → colLeB c b e = true →
      colLeB c a e = true := by
    intro a b e h1 h2
    cases c <;>
      simp only [colLeB, ymdLeB, strLeB, decide_eq_true_eq, hq] at h1 h2 ⊢ <;>
      first
        | exact le_trans h1 h2
        | omega
        | exact hstr _ _ _ h1 h2
  cases d <;>
    exact ⟨fun a b e h1 h2 => by
      simp only [tableRel] at h1 h2 ⊢
      first
        | exact hcol a b e h1 h2
        | exact hcol e b a h2 h1⟩

/-- `df.sort(column, descending)` modelled as an insertion sort by the
column's order in the requested direction. -/

def sortRecs (c : Col) (descending : Bool) (l : List Record) : List Record :=
  List.insertionSort (tableRel c descending) l

/-- Left-pad the decimal rendering of `n` with zeros to width `w`
(Python's `%Y` / `%m` / `%d` / `{:02d}` formatting). -/

def padZeros (w n : Nat) : String :=
  let s := toString n
  String.mk (List.replicate (w - s.length) '0') ++ s

/-- `date.strftime('%Y-%m-%d')`. -/

def isoDate (d : YMD) : String :=
  padZeros 4 d.year ++ "-" ++ padZeros 2 d.month ++ "-" ++ padZeros 2 d.day

/-- A table row as serialized by `get_table_data`: the record's fields with
`Date` rendered as an ISO string. -/

structure OutRecord where
  sale_id : Int
  date : String
  units_sold : Int
  price_per_unit : ℚ
  revenue : ℚ
  region : String
  sales_channel : String
deriving DecidableEq

/-- `record['Date'] = record['Date'].strftime('%Y-%m-%d')` applied to a row. -/

def renderRecord (r : Record) : OutRecord :=
  { sale_id := r.sale_id, date := isoDate r.date, units_sold := r.units_sold,
    price_per_unit := r.price_per_unit, revenue := r.revenue,
    region := r.region, sales_channel := r.sales_channel }

/-- The dictionary returned by `get_table_data`.  `current_page` is an
`Option` because the early `self.df is None` return omits that key. -/

structure TablePage where
  data : List OutRecord
  total : Nat
  pages : Nat
  current_page : Option Nat
deriving DecidableEq

/-- `DataProcessor.get_table_data` (data_processor.py:203-231): sorts the
dataframe by `sort_by` in the direction given by `sort_order`, then returns
the page slice `[(page-1)*per_page, page*per_page)` together with the total
record and page counts.  An unknown column raises (polars
`ColumnNotFoundError`); `per_page = 0` raises `ZeroDivisionError` in the
page-count floor division. -/

def get_table_data (odf : Option (List Record)) (page per_page : Nat)
    (sort_by sort_order : String) : Except PyErr TablePage :=
  match odf with
  | none => .ok { data := [], total := 0, pages := 0, current_page := none }
  | some df =>
    match colOfString sort_by with
    | none => .error .columnNotFound
    | some c =>
      let ascending := sort_order == "asc"
      let sorted_df := sortRecs c (!ascending) df
      let total_records := sorted_df.length
      if per_page = 0 then .error .zeroDivision
      else
        let total_pages := (total_records + per_page - 1) / per_page
        let offset := (page - 1) * per_page
        let page_data := (sorted_df.drop offset).take per_page
        .ok { data := page_data.map renderRecord, total := total_records,
              pages := total_pages, current_page := some page }

/-- First example record (revenue 30) for the pagination example. -/

def exRec1 : Record :=
  { sale_id := 1, date := ⟨2025, 1, 1⟩, units_sold := 3, price_per_unit := 10,
    revenue := 30, region := "North", sales_channel := "Online" }

/-- Second example record (revenue 10) for the pagination example. -/

def exRec2 : Record :=
  { sale_id := 2, date := ⟨2025, 1, 2⟩, units_sold := 1, price_per_unit := 10,
    revenue := 10, region := "South", sales_channel := "Retail" }

/-- Third example record (revenue 20) for the pagination example. -/

def exRec3 : Record :=
  { sale_id := 3, date := ⟨2025, 1, 3⟩, units_sold := 2, price_per_unit := 10,
    revenue := 20, region := "North", sales_channel := "Retail" }

/-- The three-record dataset with revenues [30, 10, 20] from the spec's
pagination example. -/

def exTable : List Record := [exRec1, exRec2, exRec3]

/-- One output row of `get_revenue_by_region` / `get_revenue_by_channel`:
a dimension value with its aggregated revenue, units and transaction count. -/

structure DimRow where
  value : String
  total_revenue : ℚ
  total_units : Int
  transaction_count : Nat
deriving DecidableEq

/-- The aggregation row for one dimension value: polars
`group_by(dim).agg(sum Revenue, sum Units_Sold, count)` restricted to the
group of records whose dimension equals `v`. -/

def aggFor (key : Record → String) (l : List Record) (v : String) : DimRow :=
  let g := l.filter (fun r => key r == v)
  { value := v, total_revenue := (g.map Record.revenue).sum,
    total_units := (g.map Record.units_sold).sum, transaction_count := g.length }

/-- `sort('total_revenue', descending=True)` order on aggregation rows. -/

def revDescRel : DimRow → DimRow → Prop :=
  fun a b => qleB b.total_revenue a.total_revenue = true

instance : DecidableRel revDescRel :=
  fun a b => inferInstanceAs (Decidable (_ = true))

/-- `group_by(dim).agg(...)` followed by `sort('total_revenue',
descending=True)`: one aggregation row per distinct dimension value, sorted
by total revenue descending. -/

def groupRevenueDesc (key : Record → String) (l : List Record) : List DimRow :=
  List.insertionSort revDescRel (((l.map key).dedup).map (aggFor key l))

/-- `DataProcessor.get_revenue_by_region` (data_processor.py:65-76). -/

def get_revenue_by_region (odf : Option (List Record)) : List DimRow :=
  match odf with
  | none => []
  | some l => groupRevenueDesc Record.region l

/-- `DataProcessor.get_revenue_by_channel` (data_processor.py:78-89). -/

def get_revenue_by_channel (odf : Option (List Record)) : List DimRow :=
  match odf with
  | none => []
  | some l => groupRevenueDesc Record.sales_channel l

/-- The KPI dictionary built by `get_kpi_metrics` for a loaded dataframe;
the top region/channel entries are present only when the grouped frame is
nonempty, hence the `Option`. -/

structure KpiMetrics where
  total_revenue : ℚ
  total_units : Int
  avg_price : ℚ
  total_transactions : Nat
  avg_units_per_sale : ℚ
  revenue_per_transaction : ℚ
  top_region : Option (String × ℚ)
  top_channel : Option (String × ℚ)
deriving DecidableEq

/-- Result of `get_kpi_metrics`: the empty dict `{}` when no dataset is
loaded, or the populated metrics dict. -/

inductive KpiOut where
  | empty
  | metrics (m : KpiMetrics)
deriving DecidableEq

/-- `polars.Series.mean()`: `None` on an empty series, otherwise the
arithmetic mean. -/

def seriesMeanQ (xs : List ℚ) : Option ℚ :=
  if xs.isEmpty then none else some (xs.sum / xs.length)

/-- Python `float(x)` applied to a possibly-`None` value: raises
`TypeError` on `None`. -/

def pyFloat (o : Option ℚ) : Except PyErr ℚ :=
  match o with
  | some q => .ok q
  | none => .error .typeError

/-- `DataProcessor.get_kpi_metrics` (data_processor.py:32-63): `{}` when no
dataset is loaded; otherwise sums, means (which raise `TypeError` through
`float(None)` on an empty dataframe) and the top revenue region/channel. -/

def get_kpi_metrics (odf : Option (List Record)) : Except PyErr KpiOut :=
  match odf with
  | none => .ok .empty
  | some l => do
    let avg_price ← pyFloat (seriesMeanQ (l.map Record.price_per_unit))
    let avg_units ← pyFloat (seriesMeanQ (l.map (fun r => (r.units_sold : ℚ))))
    let rev_txn ← pyFloat (seriesMeanQ (l.map Record.revenue))
    let top_region := (groupRevenueDesc Record.region l).head?
    let top_channel := (groupRevenueDesc Record.sales_channel l).head?
    .ok (.metrics
      { total_revenue := (l.map Record.revenue).sum,
        total_units := (l.map Record.units_sold).sum,
        avg_price := avg_price,
        total_transactions := l.length,
        avg_units_per_sale := avg_units,
        revenue_per_transaction := rev_txn,
        top_region := top_region.map (fun row => (row.value, row.total_revenue)),
        top_channel := top_channel.map (fun row => (row.value, row.total_revenue)) })

instance : IsTotal DimRow revDescRel :=
  ⟨fun a b => by
    have hq : ∀ x y : ℚ, qleB x y = true ↔ x ≤ y := fun x y => by
      rw [Rat.le_def]; simp [qleB]
    rcases le_total a.total_revenue b.total_revenue with h | h <;>
      simp [revDescRel, hq, h]⟩

instance : IsTrans DimRow revDescRel :=
  ⟨fun a b e h1 h2 => by
    have hq : ∀ x y : ℚ, qleB x y = true ↔ x ≤ y := fun x y => by
      rw [Rat.le_def]; simp [qleB]
    simp only [revDescRel, hq] at h1 h2 ⊢
    exact le_trans h2 h1⟩

/-- One output row of `get_monthly_trends`. -/

structure MonthRow where
  year_month : String
  revenue : ℚ
  units : Int
  transactions : Nat
  avg_price : ℚ
deriving DecidableEq

/-- The grouping key of `get_monthly_trends`: the (year, month) pair
extracted from the record's date. -/

def monthKey (r : Record) : Nat × Nat := (r.date.year, r.date.month)

/-- `sort(['year', 'month'])` order: lexicographic on (year, month). -/

def pairLeRel : Nat × Nat → Nat × Nat → Prop :=
  fun a b => (decide (a.1 < b.1 ∨ (a.1 = b.1 ∧ a.2 ≤ b.2))) = true

instance : DecidableRel pairLeRel :=
  fun a b => inferInstanceAs (Decidable (_ = true))

instance : IsTotal (Nat × Nat) pairLeRel :=
  ⟨fun a b => by simp only [pairLeRel, decide_eq_true_eq]; omega⟩

instance : IsTrans (Nat × Nat) pairLeRel :=
  ⟨fun a b e h1 h2 => by
    simp only [pairLeRel, decide_eq_true_eq] at h1 h2 ⊢
    omega⟩

/-- The aggregation row for one (year, month) group: revenue and unit sums,
transaction count and mean price over that month's records, with
`year_month` rendered as in the f-string `f"{year}-{month:02d}"` (the year
printed as a plain decimal, the month zero-padded to two digits). -/

def monthAgg (l : List Record) (k : Nat × Nat) : MonthRow :=
  let g := l.filter (fun r => monthKey r == k)
  { year_month := toString k.1 ++ "-" ++ padZeros 2 k.2,
    revenue := (g.map Record.revenue).sum,
    units := (g.map Record.units_sold).sum,
    transactions := g.length,
    avg_price := (g.map Record.price_per_unit).sum / g.length }

/-- `DataProcessor.get_monthly_trends` (data_processor.py:127-152): group
by (year, month), aggregate, sort ascending by (year, month), render. -/

def get_monthly_trends (odf : Option (List Record)) : List MonthRow :=
  match odf with
  | none => []
  | some l =>
    (List.insertionSort pairLeRel ((l.map monthKey).dedup)).map (monthAgg l)

/-- One output row of `get_daily_revenue_trend`. -/

structure DayRow where
  date : String
  revenue : ℚ
  units : Int
  transactions : Nat
deriving DecidableEq

/-- Executable ascending date order for `sort('Date')`. -/

def ymdLeRel : YMD → YMD → Prop := fun a b => ymdLeB a b = true

instance : DecidableRel ymdLeRel :=
  fun a b => inferInstanceAs (Decidable (_ = true))

/-- The aggregation row for one calendar date. -/

def dayAgg (l : List Record) (d : YMD) : DayRow :=
  let g := l.filter (fun r => r.date == d)
  { date := isoDate d, revenue := (g.map Record.revenue).sum,
    units := (g.map Record.units_sold).sum, transactions := g.length }

/-- `DataProcessor.get_daily_revenue_trend` (data_processor.py:91-112). -/

def get_daily_revenue_trend (odf : Option (List Record)) : List DayRow :=
  match odf with
  | none => []
  | some l =>
    (List.insertionSort ymdLeRel ((l.map Record.date).dedup)).map (dayAgg l)

/-- One output row of `get_price_distribution`. -/

structure PriceRow where
  price_per_unit : ℚ
  total_revenue : ℚ
  total_units : Int
  transaction_count : Nat
deriving DecidableEq

/-- Executable ascending price order for `sort('Price_Per_Unit')`. -/

def qleRel : ℚ → ℚ → Prop := fun a b => qleB a b = true

instance : DecidableRel qleRel :=
  fun a b => inferInstanceAs (Decidable (_ = true))

/-- The aggregation row for one price point. -/

def priceAgg (l : List Record) (p : ℚ) : PriceRow :=
  let g := l.filter (fun r => r.price_per_unit == p)
  { price_per_unit := p, total_revenue := (g.map Record.revenue).sum,
    total_units := (g.map Record.units_sold).sum, transaction_count := g.length }

/-- `DataProcessor.get_price_distribution` (data_processor.py:114-125). -/

def get_price_distribution (odf : Option (List Record)) : List PriceRow :=
  match odf with
  | none => []
  | some l =>
    (List.insertionSort qleRel ((l.map Record.price_per_unit).dedup)).map (priceAgg l)

/-- Monthly-trend example record 1: dated 2025-01-01, revenue 10. -/

def exM1 : Record :=
  { sale_id := 1, date := ⟨2025, 1, 1⟩, units_sold := 1, price_per_unit := 10,
    revenue := 10, region := "North", sales_channel := "Online" }

/-- Monthly-trend example record 2: dated 2025-01-01, revenue 20. -/

def exM2 : Record :=
  { sale_id := 2, date := ⟨2025, 1, 1⟩, units_sold := 1, price_per_unit := 20,
    revenue := 20, region := "North", sales_channel := "Online" }

/-- Monthly-trend example record 3: dated 2025-02-01, revenue 30. -/

def exM3 : Record :=
  { sale_id := 3, date := ⟨2025, 2, 1⟩, units_sold := 1, price_per_unit := 30,
    revenue := 30, region := "North", sales_channel := "Online" }

/-- The three-record dataset of the spec's monthly-trend example. -/

def exMonths : List Record := [exM1, exM2, exM3]

/-- The `/api/data` route handler (app.py:95-136) in the no-filter case:
any exception from `get_table_data` is caught by the blanket
`except Exception` and returned as HTTP 500; a normal result is returned
with HTTP 200. -/

def get_data (odf : Option (List Record)) (page per_page : Nat)
    (sort_by sort_order : String) : Nat × Option TablePage :=
  match get_table_data odf page per_page sort_by sort_order with
  | .ok tp => (200, some tp)
  | .error _ => (500, none)

/-- A CSV source file: whether `pl.read_csv` succeeds on it (header
present, types coercible), the column names it carries, and its parsed
rows (meaningful when `parses` holds). -/

structure Csv where
  parses : Bool
  columns : List String
  rows : List Record
deriving DecidableEq

/-- The dataframe `pl.read_csv` yields for a source: `none` models the
exception path of `DataProcessor.load_data`. -/

def loadCsv (c : Csv) : Option (List Record) :=
  if c.parses then some c.rows else none

/-- `DataProcessor.load_data` (data_processor.py:11-30) as a transition on
the store's dataframe: on success `self.df` becomes the parsed data; on any
exception the handler sets `self.df = None`, whatever it held before. -/

def load_data (prev : Option (List Record)) (src : Csv) : Option (List Record) :=
  match loadCsv src with
  | some d => some d
  | none => none

/-- The observable server state touched by `/api/upload` (app.py): the live
processor's dataframe, the CSV at the fixed data path, the backup files and
any leftover temporary upload files. -/

structure ServerState where
  active : Option (List Record)
  dataFile : Option Csv
  backups : List Csv
  temps : List Csv
deriving DecidableEq

/-- An incoming multipart upload request: whether a `file` part is present,
its filename, and its content. -/

structure UploadReq where
  hasFile : Bool
  filename : String
  content : Csv
deriving DecidableEq

/-- The seven required columns checked by `upload_file` (app.py:165). -/

def required_columns : List String :=
  ["Sale_ID", "Date", "Units_Sold", "Price_Per_Unit", "Revenue", "Region", "Sales_Channel"]

/-- `allowed_file` (app.py:24-25): a dot in the name and a `csv` extension
(case-insensitive) after the last dot. -/

def allowed_file (f : String) : Bool :=
  f.contains '.' && ((f.splitOn ".").getLastD "").toLower == "csv"

/-- The `/api/upload` handler `upload_file` (app.py:138-194) as a state
transition returning the new server state and the HTTP status.  Every
rejection path removes the saved temporary file and leaves the active
dataset, data file and backups untouched; the success path backs up the
current data file, swaps in the upload and reloads the processor. -/

def upload_file (st : ServerState) (req : UploadReq) : ServerState × Nat :=
  if !req.hasFile then (st, 400)
  else if req.filename == "" then (st, 400)
  else if !allowed_file req.filename then (st, 400)
  else
    match loadCsv req.content with
    | none => (st, 400)
    | some _ =>
      if !(required_columns.all (fun c => req.content.columns.contains c)) then (st, 400)
      else
        let backups := match st.dataFile with
          | some c => st.backups ++ [c]
          | none => st.backups
        ({ active := loadCsv req.content, dataFile := some req.content,
           backups := backups, temps := st.temps }, 200)

/-- A sample well-formed CSV for the currently active data file. -/

def sampleCsv : Csv :=
  { parses := true, columns := required_columns, rows := [sampleRec] }

/-- A sample upload whose source lacks the `Region` column. -/

def badUpload : UploadReq :=
  { hasFile := true, filename := "data.csv",
    content := { parses := true,
                 columns := ["Sale_ID", "Date", "Units_Sold", "Price_Per_Unit",
                             "Revenue", "Sales_Channel"],
                 rows := [sampleRec] } }

/-- A sample server state holding a loaded dataset. -/

def sampleState : ServerState :=
  { active := some [sampleRec], dataFile := some sampleCsv, backups := [], temps := [] }

/-- A CSV source on which `pl.read_csv` raises (unparseable file). -/

def badCsv : Csv := { parses := false, columns := [], rows := [] }

/-- `polars.Series.min()` on the price column: `None` on an empty series. -/

def seriesMinQ : List ℚ → Option ℚ
  | [] => none
  | x :: xs => some (xs.foldl (fun a b => if qleB b a then b else a) x)

/-- `polars.Series.max()` on the price column: `None` on an empty series. -/

def seriesMaxQ : List ℚ → Option ℚ
  | [] => none
  | x :: xs => some (xs.foldl (fun a b => if qleB a b then b else a) x)

/-- `polars.Series.min()` on the date column. -/

def seriesMinDate : List YMD → Option YMD
  | [] => none
  | x :: xs => some (xs.foldl (fun a b => if ymdLeB b a then b else a) x)

/-- `polars.Series.max()` on the date column. -/

def seriesMaxDate : List YMD → Option YMD
  | [] => none
  | x :: xs => some (xs.foldl (fun a b => if ymdLeB a b then b else a) x)

/-- `x.strftime(...)` on a possibly-`None` date: `None.strftime` raises
`AttributeError`. -/

def pyStrftime (o : Option YMD) : Except PyErr String :=
  match o with
  | some d => .ok (isoDate d)
  | none => .error .attributeError

/-- The populated dictionary returned by `get_filter_options`. -/

structure FilterOptions where
  regions : List String
  channels : List String
  price_min : ℚ
  price_max : ℚ
  date_start : String
  date_end : String
deriving DecidableEq

/-- Result of `get_filter_options`: the empty dict `{}` when no dataset is
loaded, or the populated options dict. -/

inductive FilterOptionsOut where
  | empty
  | options (o : FilterOptions)
deriving DecidableEq

/-- `DataProcessor.get_filter_options` (data_processor.py:185-201): `{}`
when no dataset is loaded; otherwise the distinct regions and channels, the
price range and the ISO-rendered date range. -/

def get_filter_options (odf : Option (List Record)) : Except PyErr FilterOptionsOut :=
  match odf with
  | none => .ok .empty
  | some l => do
    let pmin ← pyFloat (seriesMinQ (l.map Record.price_per_unit))
    let pmax ← pyFloat (seriesMaxQ (l.map Record.price_per_unit))
    let dstart ← pyStrftime (seriesMinDate (l.map Record.date))
    let dend ← pyStrftime (seriesMaxDate (l.map Record.date))
    .ok (.options
      { regions := (l.map Record.region).dedup,
        channels := (l.map Record.sales_channel).dedup,
        price_min := pmin, price_max := pmax,
        date_start := dstart, date_end := dend })

theorem ceil_mul_ge (n per : Nat) (hper : 0 < per) :
    n ≤ ((n + per - 1) / per) * per := by
  rcases Nat.eq_zero_or_pos n with h0 | h0
  · simp [h0]
  · by_contra hc
    push_neg at hc
    have h2 : ((n + per - 1) / per + 1) * per ≤ n + per - 1 := by
      have := Nat.succ_le_of_lt hc
      calc ((n + per - 1) / per + 1) * per
          = (n + per - 1) / per * per + per := by ring
        _ ≤ n + per - 1 := by omega
    have h3 : (n + per - 1) / per + 1 ≤ (n + per - 1) / per :=
      (Nat.le_div_iff_mul_le hper).mpr h2
    omega

theorem ceil_mul_lt (n per : Nat) (hper : 0 < per) :
    ((n + per - 1) / per) * per < n + per := by
  have h1 : (n + per - 1) / per * per ≤ n + per - 1 := Nat.div_mul_le_self _ _
  omega

theorem chunks_flatten {α : Type} (per : Nat) (hper : 0 < per) :
    ∀ (k : Nat) (l : List α), l.length ≤ k * per →
      ((List.range k).map (fun i => (l.drop (i * per)).take per)).flatten = l := by
  intro k
  induction k with
  | zero =>
    intro l hl
    simp only [Nat.zero_mul, Nat.le_zero] at hl
    simp [List.length_eq_zero.mp hl]
  | succ k ih =>
    intro l hl
    rw [List.range_succ_eq_map, List.map_cons, List.flatten_cons, List.map_map]
    have hcomp : ((fun i => (l.drop (i * per)).take per) ∘ Nat.succ)
        = fun i => ((l.drop per).drop (i * per)).take per := by
      funext i
      simp only [Function.comp, List.drop_drop]
      rw [Nat.succ_mul, Nat.add_comm]
    rw [hcomp, ih (l.drop per) (by rw [List.length_drop]; rw [Nat.succ_mul] at hl; omega)]
    simp

/-- The record list produced by `sortRecs` is ordered by the requested
direction's relation. -/

theorem sortRecs_sorted (c : Col) (d : Bool) (l : List Record) :
    (sortRecs c d l).Sorted (tableRel c d) :=
  List.sorted_insertionSort (tableRel c d) l

/-- The record list produced by `sortRecs` is a permutation of the input. -/

theorem sortRecs_perm (c : Col) (d : Bool) (l : List Record) :
    (sortRecs c d l).Perm l :=
  List.perm_insertionSort (tableRel c d) l

theorem filter_data_eq_filter (l : List Record) (f : Filters) :
    filter_data (some l) f = some (l.filter (satisfies f)) := by
  rcases f with ⟨sd, ed, rs, cs, mp, xp⟩
  cases sd <;> cases ed <;> cases rs <;> cases cs <;> cases mp <;> cases xp <;>
      simp only [filter_data] <;>
      (try split_ifs) <;>
      refine congrArg some ?_ <;>
      (try simp only [List.filter_filter]) <;>
      first
        | exact ((List.filter_congr (fun a _ => by simp_all [satisfies])).trans
            (List.filter_true l)).symm
        | (refine List.filter_congr ?_; intro a ha; simp_all [satisfies])

theorem groupRevenueDesc_spec (key : Record → String) (l : List Record) :
    (groupRevenueDesc key l).Sorted revDescRel ∧
    ((groupRevenueDesc key l).map DimRow.value).Perm (l.map key).dedup ∧
    (∀ v, v ∈ (groupRevenueDesc key l).map DimRow.value ↔ v ∈ l.map key) ∧
    ((groupRevenueDesc key l).map DimRow.value).Nodup ∧
    (∀ row ∈ groupRevenueDesc key l, row = aggFor key l row.value) := by
  have hperm : (groupRevenueDesc key l).Perm (((l.map key).dedup).map (aggFor key l)) :=
    List.perm_insertionSort _ _
  have hvals : (((l.map key).dedup).map (aggFor key l)).map DimRow.value
      = (l.map key).dedup := by
    rw [List.map_map]
    have hid : (DimRow.value ∘ aggFor key l) = id := funext fun v => rfl
    rw [hid, List.map_id]
  have hpv : ((groupRevenueDesc key l).map DimRow.value).Perm (l.map key).dedup := by
    have hm := hperm.map DimRow.value
    rwa [hvals] at hm
  refine ⟨List.sorted_insertionSort _ _, hpv, ?_, ?_, ?_⟩
  · intro v
    rw [hpv.mem_iff, List.mem_dedup]
  · exact hpv.nodup_iff.mpr (List.nodup_dedup _)
  · intro row hrow
    have hmem : row ∈ ((l.map key).dedup).map (aggFor key l) := hperm.subset hrow
    obtain ⟨v, _, hrv⟩ := List.mem_map.mp hmem
    subst hrv
    rfl

theorem get_kpi_metrics_nonempty (l : List Record) (hl : l ≠ []) :
    get_kpi_metrics (some l) = .ok (.metrics
      { total_revenue := (l.map Record.revenue).sum,
        total_units := (l.map Record.units_sold).sum,
        avg_price := (l.map Record.price_per_unit).sum / l.length,
        total_transactions := l.length,
        avg_units_per_sale := (l.map (fun r => (r.units_sold : ℚ))).sum / l.length,
        revenue_per_transaction := (l.map Record.revenue).sum / l.length,
        top_region := ((groupRevenueDesc Record.region l).head?).map
          (fun row => (row.value, row.total_revenue)),
        top_channel := ((groupRevenueDesc Record.sales_channel l).head?).map
          (fun row => (row.value, row.total_revenue)) }) := by
  simp only [get_kpi_metrics, seriesMeanQ, pyFloat, List.isEmpty_iff, List.map_eq_nil,
    hl, if_false, ite_false, List.length_map]
  rfl

/-- Claim C1: `filter_data` returns the subsequence of the input dataset
consisting exactly of the records satisfying all supplied predicates
(AND semantics), preserving the original relative order, and with empty
criteria it returns the dataset unchanged. -/

theorem C1_filter_data (l : List Record) (f : Filters) :
    filter_data (some l) f = some (l.filter (satisfies f)) ∧
    (l.filter (satisfies f)).Sublist l ∧
    (∀ r ∈ l.filter (satisfies f), satisfies f r = true) ∧
    filter_data (some l) emptyFilters = some l := by
  refine ⟨filter_data_eq_filter l f, List.filter_sublist l, ?_, rfl⟩
  intro r hr
  exact (List.mem_filter.mp hr).2

/-- Witness for C1: the general theorem applied to a concrete dataset and a
concrete region/price filter. -/

theorem C1_filter_data_witness :
    filter_data (some [sampleRec]) ⟨none, none, some ["North"], none, some 1, none⟩ =
      some ([sampleRec].filter (satisfies ⟨none, none, some ["North"], none, some 1, none⟩)) ∧
    ([sampleRec].filter (satisfies ⟨none, none, some ["North"], none, some 1, none⟩)).Sublist
      [sampleRec] ∧
    (∀ r ∈ [sampleRec].filter (satisfies ⟨none, none, some ["North"], none, some 1, none⟩),
      satisfies ⟨none, none, some ["North"], none, some 1, none⟩ r = true) ∧
    filter_data (some [sampleRec]) emptyFilters = some [sampleRec] :=
  C1_filter_data [sampleRec] ⟨none, none, some ["North"], none, some 1, none⟩

/-- Claim C2: for a nonempty dataset, `page ≥ 1`, `per_page ≥ 1`, a valid
sort column and sort order, `get_table_data` sorts the dataset by the named
column in the requested direction and returns the 0-indexed slice
`[(page-1)*per_page, page*per_page)` of the sorted records, with
`total` the dataset size and `pages = ceil(total / per_page)` (characterized
by `total ≤ pages * per_page < total + per_page`); repeated calls with the
same arguments return the same result, concatenating the slices of pages
`1..pages` recovers the whole sorted dataset (so the page sizes sum to
`total`), and a page whose offset is past the end yields empty `data`. -/

theorem C2_get_table_data (l : List Record) (page per_page : Nat)
    (sort_by sort_order : String) (c : Col)
    (hl : l ≠ []) (hpage : 1 ≤ page) (hper : 1 ≤ per_page)
    (hc : colOfString sort_by = some c)
    (hord : sort_order = "asc" ∨ sort_order = "desc") :
    ∃ tp, get_table_data (some l) page per_page sort_by sort_order = .ok tp ∧
      tp.data = (((sortRecs c (!(sort_order == "asc")) l).drop
          ((page - 1) * per_page)).take per_page).map renderRecord ∧
      (sortRecs c (!(sort_order == "asc")) l).Sorted
        (tableRel c (!(sort_order == "asc"))) ∧
      (sortRecs c (!(sort_order == "asc")) l).Perm l ∧
      tp.total = l.length ∧
      tp.pages = (l.length + per_page - 1) / per_page ∧
      l.length ≤ tp.pages * per_page ∧
      tp.pages * per_page < l.length + per_page ∧
      tp.current_page = some page ∧
      get_table_data (some l) page per_page sort_by sort_order =
        get_table_data (some l) page per_page sort_by sort_order ∧
      ((List.range tp.pages).map (fun i =>
          ((sortRecs c (!(sort_order == "asc")) l).drop (i * per_page)).take per_page)).flatten
        = sortRecs c (!(sort_order == "asc")) l ∧
      ((List.range tp.pages).map (fun i =>
          (((sortRecs c (!(sort_order == "asc")) l).drop (i * per_page)).take per_page).length)).sum
        = tp.total ∧
      (l.length ≤ (page - 1) * per_page → tp.data = []) := by
  have hne : ¬ per_page = 0 := by omega
  have hper0 : 0 < per_page := by omega
  have hL : (sortRecs c (!(sort_order == "asc")) l).length = l.length :=
    (sortRecs_perm c (!(sort_order == "asc")) l).length_eq
  refine ⟨{ data := (((sortRecs c (!(sort_order == "asc")) l).drop
            ((page - 1) * per_page)).take per_page).map renderRecord,
            total := (sortRecs c (!(sort_order == "asc")) l).length,
            pages := ((sortRecs c (!(sort_order == "asc")) l).length + per_page - 1) / per_page,
            current_page := some page },
          ?_, rfl, sortRecs_sorted _ _ _, sortRecs_perm _ _ _, hL, ?_, ?_, ?_, rfl, rfl,
          ?_, ?_, ?_⟩
  · simp only [get_table_data]
    rw [hc]
    simp only [if_neg hne]
  · rw [hL]
  · simp only [hL]
    exact ceil_mul_ge l.length per_page hper0
  · simp only [hL]
    exact ceil_mul_lt l.length per_page hper0
  · simp only [hL]
    refine chunks_flatten per_page hper0 _ _ ?_
    rw [hL]
    exact ceil_mul_ge l.length per_page hper0
  · simp only [hL]
    have hflat := chunks_flatten per_page hper0 ((l.length + per_page - 1) / per_page)
      (sortRecs c (!(sort_order == "asc")) l)
      (by rw [hL]; exact ceil_mul_ge l.length per_page hper0)
    calc ((List.range ((l.length + per_page - 1) / per_page)).map (fun i =>
            (((sortRecs c (!(sort_order == "asc")) l).drop (i * per_page)).take per_page).length)).sum
        = ((List.range ((l.length + per_page - 1) / per_page)).map (fun i =>
            ((sortRecs c (!(sort_order == "asc")) l).drop (i * per_page)).take per_page)).flatten.length := by
          rw [List.length_flatten, List.map_map]
          rfl
      _ = (sortRecs c (!(sort_order == "asc")) l).length := by rw [hflat]
      _ = l.length := hL
  · intro hbeyond
    have hd : (sortRecs c (!(sort_order == "asc")) l).drop ((page - 1) * per_page) = [] :=
      List.drop_eq_nil_of_le (by rw [hL]; exact hbeyond)
    simp [hd]

/-- Witness for C2: on revenues [30, 10, 20], page 1 of size 2 sorted by
Revenue ascending holds the records with revenues [10, 20], with
`total = 3` and `pages = 2`. -/

theorem C2_get_table_data_witness :
    ∃ tp, get_table_data (some exTable) 1 2 "Revenue" "asc" = .ok tp ∧
      tp.data = [renderRecord exRec2, renderRecord exRec3] ∧
      tp.total = 3 ∧ tp.pages = 2 ∧ tp.current_page = some 1 := by
  obtain ⟨tp, h1, h2, _, _, h5, h6, _, _, h9, _, _, _, _⟩ :=
    C2_get_table_data exTable 1 2 "Revenue" "asc" .revenue (by decide) (by omega)
      (by omega) (by decide) (Or.inl rfl)
  refine ⟨tp, h1, ?_, by rw [h5]; rfl, by rw [h6]; rfl, h9⟩
  rw [h2]
  decide

/-- Counterexample for C3 as stated: on the empty loaded dataset the code
does not return the KPI dictionary at all; `float(Series.mean())` raises
`TypeError`, so the claim's universally quantified equations fail there. -/

theorem C3_counterexample_empty_dataset :
    get_kpi_metrics (some ([] : List Record)) = .error .typeError := rfl

/-- Claim C3 (amended to nonempty datasets): for every nonempty loaded
dataset, `get_kpi_metrics` returns total revenue = sum of Revenue, total
units = sum of Units_Sold, average price = mean of Price_Per_Unit,
transaction count = number of records, and the per-transaction means of
units and revenue. -/

theorem C3_get_kpi_metrics (l : List Record) (hl : l ≠ []) :
    ∃ m, get_kpi_metrics (some l) = .ok (.metrics m) ∧
      m.total_revenue = (l.map Record.revenue).sum ∧
      m.total_units = (l.map Record.units_sold).sum ∧
      m.avg_price = (l.map Record.price_per_unit).sum / l.length ∧
      m.total_transactions = l.length ∧
      m.avg_units_per_sale = (l.map (fun r => (r.units_sold : ℚ))).sum / l.length ∧
      m.revenue_per_transaction = (l.map Record.revenue).sum / l.length :=
  ⟨_, get_kpi_metrics_nonempty l hl, rfl, rfl, rfl, rfl, rfl, rfl⟩

/-- Witness for C3: the amended claim instantiated on a concrete one-record
dataset. -/

theorem C3_get_kpi_metrics_witness :
    ∃ m, get_kpi_metrics (some [sampleRec]) = .ok (.metrics m) ∧
      m.total_revenue = ([sampleRec].map Record.revenue).sum ∧
      m.total_units = ([sampleRec].map Record.units_sold).sum ∧
      m.avg_price = ([sampleRec].map Record.price_per_unit).sum / [sampleRec].length ∧
      m.total_transactions = [sampleRec].length ∧
      m.avg_units_per_sale =
        ([sampleRec].map (fun r => (r.units_sold : ℚ))).sum / [sampleRec].length ∧
      m.revenue_per_transaction =
        ([sampleRec].map Record.revenue).sum / [sampleRec].length :=
  C3_get_kpi_metrics [sampleRec] (by decide)

/-- Claim C4: for both dimensions (Region and Sales_Channel), the revenue
breakdown has one row per distinct dimension value (the values listed are
distinct and are exactly those present in the dataset), each row carries
that value's total revenue, total units and transaction count, and the rows
are sorted non-increasing by total revenue. -/

theorem C4_revenue_by_dimension (l : List Record) :
    ((get_revenue_by_region (some l)).Sorted revDescRel ∧
     (∀ v, v ∈ (get_revenue_by_region (some l)).map DimRow.value ↔
        v ∈ l.map Record.region) ∧
     ((get_revenue_by_region (some l)).map DimRow.value).Nodup ∧
     (∀ row ∈ get_revenue_by_region (some l), row = aggFor Record.region l row.value)) ∧
    ((get_revenue_by_channel (some l)).Sorted revDescRel ∧
     (∀ v, v ∈ (get_revenue_by_channel (some l)).map DimRow.value ↔
        v ∈ l.map Record.sales_channel) ∧
     ((get_revenue_by_channel (some l)).map DimRow.value).Nodup ∧
     (∀ row ∈ get_revenue_by_channel (some l),
        row = aggFor Record.sales_channel l row.value)) := by
  obtain ⟨h1, _, h3, h4, h5⟩ := groupRevenueDesc_spec Record.region l
  obtain ⟨g1, _, g3, g4, g5⟩ := groupRevenueDesc_spec Record.sales_channel l
  exact ⟨⟨h1, h3, h4, h5⟩, ⟨g1, g3, g4, g5⟩⟩

/-- Witness for C4: the breakdown properties hold on the concrete
three-record dataset. -/

theorem C4_revenue_by_dimension_witness :
    ((get_revenue_by_region (some exTable)).Sorted revDescRel ∧
     (∀ v, v ∈ (get_revenue_by_region (some exTable)).map DimRow.value ↔
        v ∈ exTable.map Record.region) ∧
     ((get_revenue_by_region (some exTable)).map DimRow.value).Nodup ∧
     (∀ row ∈ get_revenue_by_region (some exTable),
        row = aggFor Record.region exTable row.value)) ∧
    ((get_revenue_by_channel (some exTable)).Sorted revDescRel ∧
     (∀ v, v ∈ (get_revenue_by_channel (some exTable)).map DimRow.value ↔
        v ∈ exTable.map Record.sales_channel) ∧
     ((get_revenue_by_channel (some exTable)).map DimRow.value).Nodup ∧
     (∀ row ∈ get_revenue_by_channel (some exTable),
        row = aggFor Record.sales_channel exTable row.value)) :=
  C4_revenue_by_dimension exTable

/-- Claim C5: `get_monthly_trends` returns one row per distinct
(year, month) pair present in the dataset, sorted ascending by
(year, month), with `year_month` rendered as the year followed by the
zero-padded two-digit month, and per-row revenue/units/transaction/mean
price aggregates over that month's records; on the three-record example
dataset it yields exactly the two rows of the spec. -/

theorem C5_get_monthly_trends (l : List Record) :
    (∃ ks : List (Nat × Nat),
      ks.Perm (l.map monthKey).dedup ∧
      ks.Sorted pairLeRel ∧
      ks.Nodup ∧
      (∀ k, k ∈ ks ↔ k ∈ l.map monthKey) ∧
      get_monthly_trends (some l) = ks.map (monthAgg l) ∧
      (∀ k ∈ ks,
        (monthAgg l k).year_month = toString k.1 ++ "-" ++ padZeros 2 k.2 ∧
        (monthAgg l k).revenue =
          ((l.filter (fun r => monthKey r == k)).map Record.revenue).sum ∧
        (monthAgg l k).units =
          ((l.filter (fun r => monthKey r == k)).map Record.units_sold).sum ∧
        (monthAgg l k).transactions = (l.filter (fun r => monthKey r == k)).length ∧
        (monthAgg l k).avg_price =
          ((l.filter (fun r => monthKey r == k)).map Record.price_per_unit).sum /
            (l.filter (fun r => monthKey r == k)).length)) ∧
    (get_monthly_trends (some exMonths)).map
        (fun r => (r.year_month, r.revenue, r.transactions)) =
      [("2025-01", (30 : ℚ), 2), ("2025-02", (30 : ℚ), 1)] := by
  constructor
  · refine ⟨List.insertionSort pairLeRel ((l.map monthKey).dedup),
      List.perm_insertionSort _ _, List.sorted_insertionSort _ _,
      ((List.perm_insertionSort _ _).nodup_iff).mpr (List.nodup_dedup _), ?_, rfl,
      fun k _ => ⟨rfl, rfl, rfl, rfl, rfl⟩⟩
    intro k
    rw [(List.perm_insertionSort _ _).mem_iff, List.mem_dedup]
  · have hdedup : (exMonths.map monthKey).dedup = [(2025, 1), (2025, 2)] := by decide
    have hsort : List.insertionSort pairLeRel [((2025 : Nat), (1 : Nat)), (2025, 2)]
        = [(2025, 1), (2025, 2)] := by decide
    have hf1 : exMonths.filter (fun r => monthKey r == ((2025 : Nat), (1 : Nat)))
        = [exM1, exM2] := by decide
    have hf2 : exMonths.filter (fun r => monthKey r == ((2025 : Nat), (2 : Nat)))
        = [exM3] := by decide
    have hym1 : toString (2025 : Nat) ++ "-" ++ padZeros 2 1 = "2025-01" := by decide
    have hym2 : toString (2025 : Nat) ++ "-" ++ padZeros 2 2 = "2025-02" := by decide
    simp only [get_monthly_trends, hdedup, hsort, List.map_cons, List.map_nil,
      monthAgg, hf1, hf2, hym1, hym2, exM1, exM2, exM3]
    norm_num

/-- Witness for C5: the general theorem applied at the example dataset. -/

theorem C5_get_monthly_trends_witness :
    (∃ ks : List (Nat × Nat),
      ks.Perm (exMonths.map monthKey).dedup ∧
      ks.Sorted pairLeRel ∧
      ks.Nodup ∧
      (∀ k, k ∈ ks ↔ k ∈ exMonths.map monthKey) ∧
      get_monthly_trends (some exMonths) = ks.map (monthAgg exMonths) ∧
      (∀ k ∈ ks,
        (monthAgg exMonths k).year_month = toString k.1 ++ "-" ++ padZeros 2 k.2 ∧
        (monthAgg exMonths k).revenue =
          ((exMonths.filter (fun r => monthKey r == k)).map Record.revenue).sum ∧
        (monthAgg exMonths k).units =
          ((exMonths.filter (fun r => monthKey r == k)).map Record.units_sold).sum ∧
        (monthAgg exMonths k).transactions =
          (exMonths.filter (fun r => monthKey r == k)).length ∧
        (monthAgg exMonths k).avg_price =
          ((exMonths.filter (fun r => monthKey r == k)).map Record.price_per_unit).sum /
            (exMonths.filter (fun r => monthKey r == k)).length)) ∧
    (get_monthly_trends (some exMonths)).map
        (fun r => (r.year_month, r.revenue, r.transactions)) =
      [("2025-01", (30 : ℚ), 2), ("2025-02", (30 : ℚ), 1)] :=
  C5_get_monthly_trends exMonths

/-- Counterexample for C6 as stated: sorting by the unrecognized column
"Bogus" on a concrete one-record dataset is reported by the request
boundary as HTTP 500, not as a 400 validation failure. -/

theorem C6_counterexample_bogus_column_500 :
    (get_data (some [sampleRec]) 1 50 "Bogus" "desc").1 = 500 ∧
    (get_data (some [sampleRec]) 1 50 "Bogus" "desc").1 ≠ 400 := by
  constructor <;> decide

/-- Claim C6 (amended): sorting by a column name that is not one of the
seven schema columns makes `get_table_data` raise (polars
`ColumnNotFoundError`), and the `/api/data` handler catches it with its
blanket `except Exception` and reports HTTP 500 — not the 400 that a
`ValidationError` classification would produce. -/

theorem C6_invalid_sort_column (odf : Option (List Record)) (l : List Record)
    (page per_page : Nat) (sort_by sort_order : String)
    (hodf : odf = some l) (hc : colOfString sort_by = none) :
    get_table_data odf page per_page sort_by sort_order = .error .columnNotFound ∧
    get_data odf page per_page sort_by sort_order = (500, none) := by
  subst hodf
  have h1 : get_table_data (some l) page per_page sort_by sort_order
      = .error .columnNotFound := by
    simp only [get_table_data, hc]
  exact ⟨h1, by simp only [get_data, h1]⟩

/-- Witness for C6: the amended claim at the concrete input "Bogus". -/

theorem C6_invalid_sort_column_witness :
    get_table_data (some [sampleRec]) 1 50 "Bogus" "desc" = .error .columnNotFound ∧
    get_data (some [sampleRec]) 1 50 "Bogus" "desc" = (500, none) :=
  C6_invalid_sort_column (some [sampleRec]) [sampleRec] 1 50 "Bogus" "desc" rfl (by decide)

/-- Claim C7 (the code bug it reports): on an empty loaded dataset
`get_kpi_metrics` does not return a documented "no data" sentinel; it
raises `TypeError` (from `float(None)` applied to the mean of an empty
series), which the route layer surfaces as a generic HTTP 500. -/

theorem C7_kpis_empty_dataset_raises :
    get_kpi_metrics (some ([] : List Record)) = .error .typeError := rfl

/-- Claim C8: an upload whose source is missing the required `Region`
column is rejected with HTTP 400, and the server state is unchanged: the
active dataset, the data file, the backup list (no timestamped backup is
created) and the temporary files (the rejected upload is discarded) are
all exactly as before. -/

theorem C8_upload_missing_region (st : ServerState) (req : UploadReq)
    (hreg : req.content.columns.contains "Region" = false) :
    (upload_file st req).2 = 400 ∧
    (upload_file st req).1.active = st.active ∧
    (upload_file st req).1.dataFile = st.dataFile ∧
    (upload_file st req).1.backups = st.backups ∧
    (upload_file st req).1.temps = st.temps ∧
    (upload_file st req).1 = st := by
  have hall : required_columns.all (fun c => req.content.columns.contains c) = false := by
    simp only [required_columns, List.all_cons, List.all_nil, hreg]
    simp
  have hst : upload_file st req = (st, 400) := by
    unfold upload_file
    split_ifs with h1 h2 h3 h4
    · rfl
    · rfl
    · rfl
    · cases loadCsv req.content <;> rfl
    · simp only [Bool.not_eq_true', Bool.not_eq_false, List.all_eq_true] at h4
      exact absurd (h4 "Region" (by decide)) (by simpa using hreg)
  rw [hst]
  exact ⟨rfl, rfl, rfl, rfl, rfl, rfl⟩

/-- Witness for C8: the concrete Region-less upload against the concrete
populated server state. -/

theorem C8_upload_missing_region_witness :
    (upload_file sampleState badUpload).2 = 400 ∧
    (upload_file sampleState badUpload).1.active = sampleState.active ∧
    (upload_file sampleState badUpload).1.dataFile = sampleState.dataFile ∧
    (upload_file sampleState badUpload).1.backups = sampleState.backups ∧
    (upload_file sampleState badUpload).1.temps = sampleState.temps ∧
    (upload_file sampleState badUpload).1 = sampleState :=
  C8_upload_missing_region sampleState badUpload (by decide)

/-- Counterexample for C9 as stated: a failed `load_data` on a store that
previously held a valid dataset does not leave that dataset visible — the
exception handler sets `self.df = None`. -/

theorem C9_counterexample_failed_load_clears :
    load_data (some [sampleRec]) badCsv ≠ some [sampleRec] ∧
    load_data (some [sampleRec]) badCsv = none := by
  constructor <;> decide

/-- Claim C9 (amended): a load that fails (unreadable source or failed type
coercion) is rejected and the store's dataframe becomes `None` — it keeps
its previous dataset only in the degenerate sense that `load_data` is
invoked solely from the constructor, where no previous dataset exists. -/

theorem C9_failed_load_resets_store (prev : Option (List Record)) (src : Csv)
    (hfail : loadCsv src = none) :
    load_data prev src = none := by
  simp [load_data, hfail]

/-- Witness for C9: the amended claim at a concrete previous dataset and a
concrete unparseable source. -/

theorem C9_failed_load_resets_store_witness :
    load_data (some [sampleRec]) badCsv = none :=
  C9_failed_load_resets_store (some [sampleRec]) badCsv (by decide)

/-- Claim C10: with no dataset loaded (`self.df is None`) every query
operation returns its empty sentinel instead of raising: `get_kpi_metrics`
and `get_filter_options` return the empty dict, the breakdown/trend/
distribution queries return the empty sequence, `filter_data` returns
`None`, and `get_table_data` returns `{data: [], total: 0, pages: 0}`
without the `current_page` key — in contrast with the populated case,
whose result carries `current_page`. -/

theorem C10_no_dataset_sentinels :
    get_kpi_metrics none = .ok .empty ∧
    get_filter_options none = .ok .empty ∧
    get_revenue_by_region none = [] ∧
    get_revenue_by_channel none = [] ∧
    get_daily_revenue_trend none = [] ∧
    get_monthly_trends none = [] ∧
    get_price_distribution none = [] ∧
    (∀ f : Filters, filter_data none f = none) ∧
    (∀ page per_page : Nat, ∀ sort_by sort_order : String,
      get_table_data none page per_page sort_by sort_order =
        .ok { data := [], total := 0, pages := 0, current_page := none }) ∧
    get_table_data (some [sampleRec]) 1 50 "Date" "desc" =
      .ok { data := [renderRecord sampleRec], total := 1, pages := 1,
            current_page := some 1 } := by
  refine ⟨rfl, rfl, rfl, rfl, rfl, rfl, rfl, fun f => rfl,
    fun page per_page sort_by sort_order => rfl, ?_⟩
  rfl
